import Mathlib

/-!
Shallow embedding of the demo-llm-integration TypeScript repository.

JavaScript strings are modelled as lists of Unicode characters (`JStr`), so
that the character-level splitting performed by the adapters' synthesized
streaming (`String.prototype.split(' ')`, `split(/(?<=[.!?])\s+/u)`, `[...s]`)
is expressed directly over `List Char`.  String literals from the source are
written as `"...".data`.

The mock SDK clients (`src/platforms/sdk-clients.ts`) are deterministic pure
functions, so adapters become pure functions; `async` suspension carries no
observable behaviour here.  TypeScript exceptions are modelled with
`Except JStr`, carrying the exact `Error` message built by the source.
Streams produced by the async generators are finite by construction and are
modelled as `List StreamingChunk`.

Numeric option payloads (`temperature`, `maxTokens`) are never computed with
by the code under verification (the mock clients only copy them or ignore
them), so their carrier type is `Int`, standing in for the JS number.
-/

abbrev JStr := List Char

/-- Shared domain types from src/core/chat-types.ts. -/
structure ChatOptions where
  temperature : Option Int := none
  maxTokens : Option Int := none
  systemPrompt : Option JStr := none
  streaming : Option Bool := none
  metadata : Option (List (JStr × JStr)) := none
deriving DecidableEq

def ChatOptions.empty : ChatOptions := {}

structure UsageStatistics where
  promptTokens : Nat
  completionTokens : Nat
  totalTokens : Nat
deriving DecidableEq

structure ChatResponse where
  model : JStr
  content : JStr
  usage : UsageStatistics
  additionalData : Option (List (JStr × Int)) := none
deriving DecidableEq

structure StreamingChunk where
  model : JStr
  contentFragment : JStr
  isLast : Bool
deriving DecidableEq

/-- Mock Bedrock SDK shapes from src/platforms/sdk-clients.ts. -/
structure BedrockRequest where
  modelId : JStr
  prompt : JStr
  temperature : Option Int := none
  maxTokens : Option Int := none

structure BedrockResponse where
  modelId : JStr
  outputText : JStr
  promptTokens : Nat
  completionTokens : Nat
  additionalMetadata : Option (List (JStr × Int)) := none

def BedrockSDKClient.invokeModel (request : BedrockRequest) : BedrockResponse :=
  { modelId := request.modelId
  , outputText := "Bedrock response to: ".data ++ request.prompt
  , promptTokens := 10
  , completionTokens := 20
  , additionalMetadata := some [("temperature".data, request.temperature.getD 0)] }

inductive Role where
  | system
  | user
deriving DecidableEq, BEq

structure AzureMessage where
  role : Role
  content : JStr

structure AzureRequest where
  deploymentId : JStr
  messages : List AzureMessage
  temperature : Option Int := none
  maxTokens : Option Int := none

structure AzureUsage where
  promptTokens : Nat
  completionTokens : Nat

structure AzureResponse where
  model : JStr
  content : JStr
  usage : AzureUsage

def AzureOpenAIClient.createChatCompletion (request : AzureRequest) : AzureResponse :=
  let userMessage := request.messages.find? (fun msg => msg.role == Role.user)
  { model := request.deploymentId
  , content := "Azure OpenAI response to: ".data ++ ((userMessage.map (fun m => m.content)).getD [])
  , usage := { promptTokens := 12, completionTokens := 18 } }

structure GoogleRequest where
  model : JStr
  input : JStr
  safetySettings : Option (List (JStr × JStr)) := none

structure GoogleCandidate where
  output : JStr

structure GoogleTokenUsage where
  promptTokens : Nat
  candidatesTokens : Nat

structure GoogleResponse where
  model : JStr
  candidates : List GoogleCandidate
  tokenUsage : GoogleTokenUsage

def GoogleGenerativeClient.generateContent (request : GoogleRequest) : GoogleResponse :=
  { model := request.model
  , candidates := [{ output := "Vertex AI response to: ".data ++ request.input }]
  , tokenUsage := { promptTokens := 9, candidatesTokens := 16 } }

/-- The Ollama request `options` object is built by the strategy from
temperature, num_predict and a spread of `options.metadata`; the mock client
never reads it, so the spread is carried as a plain field. -/
structure OllamaRequestOptions where
  temperature : Option Int := none
  num_predict : Option Int := none
  metadata : Option (List (JStr × JStr)) := none

structure OllamaRequest where
  model : JStr
  prompt : JStr
  options : OllamaRequestOptions := {}

structure OllamaResponse where
  model : JStr
  response : JStr
  promptEvalCount : Nat
  evalCount : Nat

def OllamaClient.generate (request : OllamaRequest) : OllamaResponse :=
  { model := request.model
  , response := "Ollama response to: ".data ++ request.prompt
  , promptEvalCount := 8
  , evalCount := 13 }

/-! ## JavaScript string splitting

`splitSpaceCore` embeds `content.split(' ')`: split at every single space
character, keeping empty pieces, with `"".split(' ') = [""]`.

`splitSentencesGo` embeds `content.split(/(?<=[.!?])\s+/u)`: split at every
maximal run of whitespace whose first character is immediately preceded by
one of `.`, `!`, `?`; the matched whitespace is consumed.  `prev` is the
character preceding the current position (`none` at the start of the string),
and `inSep` records that the scanner is inside the greedy `\s+` run. -/

def splitSpaceCore : List Char → List (List Char)
  | [] => [[]]
  | c :: cs =>
    if c = ' ' then [] :: splitSpaceCore cs
    else
      match splitSpaceCore cs with
      | [] => [[c]]
      | r :: rs => (c :: r) :: rs

/-- The character class of the JS `\s` escape under the `u` flag. -/
def isJsWs (c : Char) : Bool :=
  let v := c.toNat
  v = 9 || v = 10 || v = 11 || v = 12 || v = 13 || v = 32 ||
  v = 0xa0 || v = 0x1680 || (0x2000 ≤ v && v ≤ 0x200a) ||
  v = 0x2028 || v = 0x2029 || v = 0x202f || v = 0x205f || v = 0x3000 || v = 0xfeff

def isSentenceEnd (c : Char) : Bool :=
  c = '.' || c = '!' || c = '?'

def prevIsSentenceEnd : Option Char → Bool
  | some p => isSentenceEnd p
  | none => false

def splitSentencesGo (prev : Option Char) (inSep : Bool) : List Char → List (List Char)
  | [] => [[]]
  | c :: cs =>
    if inSep && isJsWs c then
      splitSentencesGo none true cs
    else if !inSep && prevIsSentenceEnd prev && isJsWs c then
      [] :: splitSentencesGo none true cs
    else
      match splitSentencesGo (some c) false cs with
      | [] => [[c]]
      | r :: rs => (c :: r) :: rs

def jsSplitSentences (content : List Char) : List (List Char) :=
  splitSentencesGo none false content

/-- A position of the content where the Google sentence split would cut:
some whitespace character immediately preceded by a sentence-ending mark. -/
def hasSentenceBoundary : Option Char → List Char → Bool
  | _, [] => false
  | prev, c :: cs => (prevIsSentenceEnd prev && isJsWs c) || hasSentenceBoundary (some c) cs

/-! ## Synthesized streaming

Every adapter synthesizes its stream with the same `for ([index, piece] of
pieces.entries())` loop over a piece decomposition of the full response
content; `chunkLoop` is that loop, with `n` the (fixed) number of pieces and
`addSpace` selecting the Bedrock/Azure re-append of the split-away space. -/

def chunkLoop (model : JStr) (addSpace : Bool) (n : Nat) : Nat → List JStr → List StreamingChunk
  | _, [] => []
  | i, w :: ws =>
    { model := model
    , contentFragment := w ++ (if addSpace = true ∧ i < n - 1 then [' '] else [])
    , isLast := i == n - 1 } :: chunkLoop model addSpace n (i + 1) ws

/-- Concatenation of the contentFragment values of a chunk sequence. -/
def fragsConcat : List StreamingChunk → JStr
  | [] => []
  | c :: cs => c.contentFragment ++ fragsConcat cs

/-! ## Adapters (Strategy implementations) -/

def BedrockStrategy.adaptResponse (response : BedrockResponse) : ChatResponse :=
  { model := response.modelId
  , content := response.outputText
  , usage :=
    { promptTokens := response.promptTokens
    , completionTokens := response.completionTokens
    , totalTokens := response.promptTokens + response.completionTokens }
  , additionalData := response.additionalMetadata }

def BedrockStrategy.sendMessage (modelId : JStr) (prompt : JStr) (options : ChatOptions) : ChatResponse :=
  BedrockStrategy.adaptResponse (BedrockSDKClient.invokeModel
    { modelId := modelId
    , prompt := prompt
    , temperature := options.temperature
    , maxTokens := options.maxTokens })

/-- The split-and-yield stage of BedrockStrategy.streamMessage, applied to the
full response's model and content. -/
def BedrockStrategy.chunksOfContent (model content : JStr) : List StreamingChunk :=
  chunkLoop model true (splitSpaceCore content).length 0 (splitSpaceCore content)

def BedrockStrategy.streamMessage (modelId : JStr) (prompt : JStr) (options : ChatOptions) : List StreamingChunk :=
  let fullResponse := BedrockStrategy.sendMessage modelId prompt options
  BedrockStrategy.chunksOfContent fullResponse.model fullResponse.content

def AzureOpenAIStrategy.adaptResponse (response : AzureResponse) : ChatResponse :=
  { model := response.model
  , content := response.content
  , usage :=
    { promptTokens := response.usage.promptTokens
    , completionTokens := response.usage.completionTokens
    , totalTokens := response.usage.promptTokens + response.usage.completionTokens } }

def AzureOpenAIStrategy.sendMessage (deploymentId : JStr) (prompt : JStr) (options : ChatOptions) : ChatResponse :=
  AzureOpenAIStrategy.adaptResponse (AzureOpenAIClient.createChatCompletion
    { deploymentId := deploymentId
    , temperature := options.temperature
    , maxTokens := options.maxTokens
    , messages :=
        (match options.systemPrompt with
         | some sys => [{ role := Role.system, content := sys }]
         | none => []) ++ [{ role := Role.user, content := prompt }] })

def AzureOpenAIStrategy.chunksOfContent (model content : JStr) : List StreamingChunk :=
  chunkLoop model true (splitSpaceCore content).length 0 (splitSpaceCore content)

def AzureOpenAIStrategy.streamMessage (deploymentId : JStr) (prompt : JStr) (options : ChatOptions) : List StreamingChunk :=
  let result := AzureOpenAIStrategy.sendMessage deploymentId prompt options
  AzureOpenAIStrategy.chunksOfContent result.model result.content

def GoogleVertexStrategy.adaptResponse (response : GoogleResponse) : ChatResponse :=
  let firstCandidate := response.candidates.head?
  { model := response.model
  , content := (firstCandidate.map (fun c => c.output)).getD []
  , usage :=
    { promptTokens := response.tokenUsage.promptTokens
    , completionTokens := response.tokenUsage.candidatesTokens
    , totalTokens := response.tokenUsage.promptTokens + response.tokenUsage.candidatesTokens } }

def GoogleVertexStrategy.sendMessage (model : JStr) (prompt : JStr) (options : ChatOptions) : ChatResponse :=
  GoogleVertexStrategy.adaptResponse (GoogleGenerativeClient.generateContent
    { model := model
    , input := prompt
    , safetySettings := options.metadata })

def GoogleVertexStrategy.chunksOfContent (model content : JStr) : List StreamingChunk :=
  chunkLoop model false (jsSplitSentences content).length 0 (jsSplitSentences content)

def GoogleVertexStrategy.streamMessage (model : JStr) (prompt : JStr) (options : ChatOptions) : List StreamingChunk :=
  let result := GoogleVertexStrategy.sendMessage model prompt options
  GoogleVertexStrategy.chunksOfContent result.model result.content

def OllamaStrategy.adaptResponse (response : OllamaResponse) : ChatResponse :=
  { model := response.model
  , content := response.response
  , usage :=
    { promptTokens := response.promptEvalCount
    , completionTokens := response.evalCount
    , totalTokens := response.promptEvalCount + response.evalCount } }

def OllamaStrategy.sendMessage (model : JStr) (prompt : JStr) (options : ChatOptions) : ChatResponse :=
  OllamaStrategy.adaptResponse (OllamaClient.generate
    { model := model
    , prompt := prompt
    , options :=
      { temperature := options.temperature
      , num_predict := options.maxTokens
      , metadata := options.metadata } })

/-- The `[...result.content]` character decomposition followed by the yield loop. -/
def OllamaStrategy.chunksOfContent (model content : JStr) : List StreamingChunk :=
  chunkLoop model false content.length 0 (content.map (fun c => [c]))

def OllamaStrategy.streamMessage (model : JStr) (prompt : JStr) (options : ChatOptions) : List StreamingChunk :=
  let result := OllamaStrategy.sendMessage model prompt options
  OllamaStrategy.chunksOfContent result.model result.content

/-- The closed set of LLMStrategy implementations in the repository, each
carrying its bound model identifier (the mock SDK clients are stateless). -/
inductive LLMStrategy where
  | bedrock (modelId : JStr)
  | azure (deploymentId : JStr)
  | google (model : JStr)
  | ollama (model : JStr)
deriving DecidableEq

def LLMStrategy.sendMessage : LLMStrategy → JStr → ChatOptions → ChatResponse
  | .bedrock modelId, prompt, options => BedrockStrategy.sendMessage modelId prompt options
  | .azure deploymentId, prompt, options => AzureOpenAIStrategy.sendMessage deploymentId prompt options
  | .google model, prompt, options => GoogleVertexStrategy.sendMessage model prompt options
  | .ollama model, prompt, options => OllamaStrategy.sendMessage model prompt options

def LLMStrategy.streamMessage : LLMStrategy → JStr → ChatOptions → List StreamingChunk
  | .bedrock modelId, prompt, options => BedrockStrategy.streamMessage modelId prompt options
  | .azure deploymentId, prompt, options => AzureOpenAIStrategy.streamMessage deploymentId prompt options
  | .google model, prompt, options => GoogleVertexStrategy.streamMessage model prompt options
  | .ollama model, prompt, options => OllamaStrategy.streamMessage model prompt options

/-! ## Factories (src/platforms/asterisk/asterisk-factory.ts) -/

inductive LLMFactory where
  | bedrock
  | azure
  | google
  | ollama
deriving DecidableEq

/-- The fixed SUPPORTED_MODELS / SUPPORTED_DEPLOYMENTS allowlist of each factory. -/
def LLMFactory.supportedModels : LLMFactory → List JStr
  | .bedrock => ["anthropic.claude-v2".data, "mistral.large".data, "meta.llama2-70b".data]
  | .azure => ["gpt-4o-mini".data, "gpt-35-turbo".data, "gpt-4o".data]
  | .google => ["gemini-pro".data, "gemini-1.0-pro".data, "text-unicorn-latest".data]
  | .ollama => ["llama3".data, "mistral".data, "codellama".data]

/-- The UnsupportedModel error message each factory throws; it names the
platform and quotes the rejected model identifier. -/
def LLMFactory.unsupportedModelMsg : LLMFactory → JStr → JStr
  | .bedrock, model => "Bedrock model \"".data ++ model ++ "\" is not supported.".data
  | .azure, model => "Azure deployment \"".data ++ model ++ "\" is not registered.".data
  | .google, model => "Google model \"".data ++ model ++ "\" is not supported.".data
  | .ollama, model => "Ollama model \"".data ++ model ++ "\" is not available.".data

/-- The adapter instance the factory constructs on a successful createClient. -/
def LLMFactory.strategyFor : LLMFactory → JStr → LLMStrategy
  | .bedrock, model => LLMStrategy.bedrock model
  | .azure, model => LLMStrategy.azure model
  | .google, model => LLMStrategy.google model
  | .ollama, model => LLMStrategy.ollama model

def LLMFactory.createClient (factory : LLMFactory) (model : JStr) : Except JStr LLMStrategy :=
  if ¬ (model ∈ factory.supportedModels) then
    Except.error (factory.unsupportedModelMsg model)
  else
    Except.ok (factory.strategyFor model)

/-! ## Registry (src/registry/llm-registry.ts)

The JS `Map` keyed by the lower-cased platform name is modelled as a function
from keys to optional factories.  `String.prototype.toLowerCase` is applied to
ASCII platform names in this repository, where it agrees with the per-character
ASCII lowering below. -/

def jsToLower (s : JStr) : JStr := s.map Char.toLower

abbrev LLMRegistry := JStr → Option LLMFactory

def LLMRegistry.empty : LLMRegistry := fun _ => none

def LLMRegistry.register (registry : LLMRegistry) (platform : JStr) (factory : LLMFactory) : LLMRegistry :=
  fun key => if key = jsToLower platform then some factory else registry key

def notRegisteredMsg (platform : JStr) : JStr :=
  "Factory for platform \"".data ++ platform ++ "\" has not been registered.".data

def LLMRegistry.getFactory (registry : LLMRegistry) (platform : JStr) : Except JStr LLMFactory :=
  match registry (jsToLower platform) with
  | none => Except.error (notRegisteredMsg platform)
  | some factory => Except.ok factory

/-- registerDefaultFactories from src/platforms/register.ts. -/
def llmRegistryDefault : LLMRegistry :=
  ((((LLMRegistry.empty.register "bedrock".data LLMFactory.bedrock).register
      "azure".data LLMFactory.azure).register
      "google".data LLMFactory.google).register
      "ollama".data LLMFactory.ollama)

/-! ## ChatService (src/service/chat-service.ts) -/

structure ProviderConfig where
  platform : JStr
  model : JStr
deriving DecidableEq

structure ChatServiceState where
  strategy : Option LLMStrategy := none
  config : Option ProviderConfig := none
deriving DecidableEq

def notConfiguredMsg : JStr := "ChatService has not been configured with a provider yet.".data

/-- configure: resolveFactory then createClient; both assignments happen only
after both calls returned, so a thrown error leaves the object untouched.
The previous state is not read by configure, so it is not a parameter here;
`ChatService.configureApply` restores it on failure. -/
def ChatService.configure (registry : LLMRegistry)
    (config : ProviderConfig) : Except JStr ChatServiceState :=
  match registry.getFactory config.platform with
  | Except.error e => Except.error e
  | Except.ok factory =>
    match factory.createClient config.model with
    | Except.error e => Except.error e
    | Except.ok strategy => Except.ok { strategy := some strategy, config := some config }

/-- The caller-side view of a configure call: on a thrown error the service
object keeps its previous state. -/
def ChatService.configureApply (registry : LLMRegistry) (st : ChatServiceState)
    (config : ProviderConfig) : ChatServiceState :=
  match ChatService.configure registry config with
  | Except.error _ => st
  | Except.ok st' => st'

def ChatService.send (st : ChatServiceState) (prompt : JStr) (options : ChatOptions) :
    Except JStr ChatResponse :=
  match st.strategy with
  | none => Except.error notConfiguredMsg
  | some activeStrategy => Except.ok (activeStrategy.sendMessage prompt options)

def ChatService.stream (st : ChatServiceState) (prompt : JStr) (options : ChatOptions) :
    Except JStr (List StreamingChunk) :=
  match st.strategy with
  | none => Except.error notConfiguredMsg
  | some activeStrategy => Except.ok (activeStrategy.streamMessage prompt options)

def ChatService.getCurrentConfiguration (st : ChatServiceState) : Option ProviderConfig :=
  st.config

/-- A sequence of configure calls applied to a service, each with the
exception swallowed by the caller (the service keeps its state on failure). -/
def ChatService.runConfigures (registry : LLMRegistry) :
    ChatServiceState → List ProviderConfig → ChatServiceState
  | st, [] => st
  | st, config :: rest =>
    ChatService.runConfigures registry (ChatService.configureApply registry st config) rest

/-! ## Builder and configured client (src/service/llm-client-builder.ts) -/

structure LLMClientBuilder where
  config : Option ProviderConfig := none
  defaultOptions : Option ChatOptions := none
deriving DecidableEq

def LLMClientBuilder.new : LLMClientBuilder := {}

/-- withPlatform: spread of the accumulated config (or a model-empty default)
with the platform field overridden. -/
def LLMClientBuilder.withPlatform (b : LLMClientBuilder) (platform : JStr) : LLMClientBuilder :=
  let keptModel := match b.config with
    | none => []
    | some c => c.model
  { b with config := some { platform := platform, model := keptModel } }

def LLMClientBuilder.withModel (b : LLMClientBuilder) (model : JStr) : LLMClientBuilder :=
  let keptPlatform := match b.config with
    | none => []
    | some c => c.platform
  { b with config := some { platform := keptPlatform, model := model } }

/-- withDefaultOptions merges shallowly into the accumulated defaults; field
presence is `some`, later calls overriding earlier ones per field. -/
def mergeChatOptions (base incoming : ChatOptions) : ChatOptions :=
  { temperature := (incoming.temperature).orElse (fun _ => base.temperature)
  , maxTokens := (incoming.maxTokens).orElse (fun _ => base.maxTokens)
  , systemPrompt := (incoming.systemPrompt).orElse (fun _ => base.systemPrompt)
  , streaming := (incoming.streaming).orElse (fun _ => base.streaming)
  , metadata := (incoming.metadata).orElse (fun _ => base.metadata) }

def LLMClientBuilder.withDefaultOptions (b : LLMClientBuilder) (options : ChatOptions) : LLMClientBuilder :=
  { b with defaultOptions := some (mergeChatOptions (b.defaultOptions.getD ChatOptions.empty) options) }

def missingPlatformMsg : JStr := "Platform must be specified before building the client.".data

def missingModelMsg : JStr := "Model must be specified before building the client.".data

structure ConfiguredClient where
  service : ChatServiceState
  defaultOptions : Option ChatOptions
deriving DecidableEq

/-- build: the TS guard `config?.platform === undefined || config?.platform === ''`
reduces to config being unset or its platform being the empty string, since a
set config always carries both fields as strings; likewise for model.  After
validation it configures the builder's (fresh) ChatService and wraps it. -/
def LLMClientBuilder.build (registry : LLMRegistry) (b : LLMClientBuilder) :
    Except JStr ConfiguredClient :=
  match b.config with
  | none => Except.error missingPlatformMsg
  | some config =>
    if config.platform = [] then Except.error missingPlatformMsg
    else if config.model = [] then Except.error missingModelMsg
    else
      match ChatService.configure registry config with
      | Except.error e => Except.error e
      | Except.ok serviceState =>
        Except.ok { service := serviceState, defaultOptions := b.defaultOptions }

/-- The shallow two-object spread performed by ConfiguredClient.send/stream:
fields present in the per-call options win, absent fields fall back to the
builder defaults; either object may be absent altogether. -/
def mergeOptions (defaults options : Option ChatOptions) : ChatOptions :=
  mergeChatOptions (defaults.getD ChatOptions.empty) (options.getD ChatOptions.empty)

def ConfiguredClient.send (client : ConfiguredClient) (prompt : JStr)
    (options : Option ChatOptions) : Except JStr ChatResponse :=
  ChatService.send client.service prompt (mergeOptions client.defaultOptions options)

def ConfiguredClient.stream (client : ConfiguredClient) (prompt : JStr)
    (options : Option ChatOptions) : Except JStr (List StreamingChunk) :=
  ChatService.stream client.service prompt (mergeOptions client.defaultOptions options)

/-- The accumulated platform the build guard inspects (`this.config?.platform`,
with the unset config and the empty string both rejected the same way). -/
def LLMClientBuilder.platformOf (b : LLMClientBuilder) : JStr :=
  match b.config with
  | none => []
  | some c => c.platform

def LLMClientBuilder.modelOf (b : LLMClientBuilder) : JStr :=
  match b.config with
  | none => []
  | some c => c.model

/-! ## Lemmas about the splitting and chunking functions -/

theorem splitSpaceCore_ne_nil (l : List Char) : splitSpaceCore l ≠ [] := by
  induction l with
  | nil => simp [splitSpaceCore]
  | cons c cs ih =>
    simp only [splitSpaceCore]
    split
    · simp
    · split
      · simp
      · simp

/-- Array.prototype.join(' ') on the piece list. -/
def joinSpaceCore : List (List Char) → List Char
  | [] => []
  | [w] => w
  | w :: ws => w ++ ' ' :: joinSpaceCore ws

@[simp] theorem joinSpaceCore_nil : joinSpaceCore [] = [] := rfl

@[simp] theorem joinSpaceCore_single (w : List Char) : joinSpaceCore [w] = w := rfl

@[simp] theorem joinSpaceCore_cons_cons (w x : List Char) (xs : List (List Char)) :
    joinSpaceCore (w :: x :: xs) = w ++ ' ' :: joinSpaceCore (x :: xs) := rfl

/-- Splitting on single spaces and re-joining with single spaces is lossless. -/
theorem joinSpaceCore_splitSpaceCore (l : List Char) :
    joinSpaceCore (splitSpaceCore l) = l := by
  induction l with
  | nil => rfl
  | cons c cs ih =>
    by_cases h : c = ' '
    · subst h
      have hstep : splitSpaceCore (' ' :: cs) = [] :: splitSpaceCore cs := by
        simp [splitSpaceCore]
      rw [hstep]
      cases hsc : splitSpaceCore cs with
      | nil => exact absurd hsc (splitSpaceCore_ne_nil cs)
      | cons r rs =>
        rw [hsc] at ih
        rw [joinSpaceCore_cons_cons, ih]
        rfl
    · simp only [splitSpaceCore, if_neg h]
      cases hsc : splitSpaceCore cs with
      | nil => exact absurd hsc (splitSpaceCore_ne_nil cs)
      | cons r rs =>
        rw [hsc] at ih
        cases rs with
        | nil =>
          simp only [joinSpaceCore_single] at ih ⊢
          rw [ih]
        | cons q qs =>
          rw [joinSpaceCore_cons_cons] at ih ⊢
          simp only [List.cons_append, ih]

/-- Plain concatenation of the piece list (no separator re-added). -/
def joinPlainCore : List (List Char) → List Char
  | [] => []
  | w :: ws => w ++ joinPlainCore ws

theorem joinPlainCore_map_singleton (l : List Char) :
    joinPlainCore (l.map (fun c => [c])) = l := by
  induction l with
  | nil => rfl
  | cons c cs ih => simp [joinPlainCore, ih]

theorem splitSentencesGo_ne_nil (l : List Char) :
    ∀ (prev : Option Char) (inSep : Bool), splitSentencesGo prev inSep l ≠ [] := by
  induction l with
  | nil => intro prev inSep; simp [splitSentencesGo]
  | cons c cs ih =>
    intro prev inSep
    simp only [splitSentencesGo]
    split
    · exact ih none true
    · split
      · simp
      · split
        · simp
        · simp

/-- When the content has no sentence boundary, the Google split is the whole
content as a single piece. -/
theorem splitSentencesGo_of_no_boundary (l : List Char) :
    ∀ (prev : Option Char), hasSentenceBoundary prev l = false →
      splitSentencesGo prev false l = [l] := by
  induction l with
  | nil => intro prev _; rfl
  | cons c cs ih =>
    intro prev h
    simp only [hasSentenceBoundary, Bool.or_eq_false_iff] at h
    obtain ⟨h1, h2⟩ := h
    simp only [splitSentencesGo]
    rw [if_neg (by simp)]
    rw [if_neg (by simp [Bool.and_assoc, h1])]
    rw [ih (some c) h2]

theorem chunkLoop_cons (model : JStr) (addSpace : Bool) (n i : Nat) (w : JStr) (ws : List JStr) :
    chunkLoop model addSpace n i (w :: ws) =
      { model := model
      , contentFragment := w ++ (if addSpace = true ∧ i < n - 1 then [' '] else [])
      , isLast := i == n - 1 } :: chunkLoop model addSpace n (i + 1) ws := rfl

theorem fragsConcat_cons (c : StreamingChunk) (cs : List StreamingChunk) :
    fragsConcat (c :: cs) = c.contentFragment ++ fragsConcat cs := rfl

theorem chunkLoop_length (model : JStr) (addSpace : Bool) (n : Nat) :
    ∀ (ws : List JStr) (i : Nat), (chunkLoop model addSpace n i ws).length = ws.length := by
  intro ws
  induction ws with
  | nil => intro i; rfl
  | cons w ws ih => intro i; simp [chunkLoop, ih]

/-- The isLast flags of a synthesized chunk sequence: all false except the
final chunk, which is true. -/
theorem chunkLoop_map_isLast (model : JStr) (addSpace : Bool) (n : Nat) :
    ∀ (ws : List JStr) (i : Nat), ws ≠ [] → i + ws.length = n →
      (chunkLoop model addSpace n i ws).map (fun c => c.isLast) =
        List.replicate (ws.length - 1) false ++ [true] := by
  intro ws
  induction ws with
  | nil => intro i h; exact absurd rfl h
  | cons w ws ih =>
    intro i _ hn
    cases ws with
    | nil =>
      have hi : i = n - 1 := by simp at hn; omega
      simp [chunkLoop, hi]
    | cons x xs =>
      have hne : (i == n - 1) = false := by
        have : i ≠ n - 1 := by simp [List.length] at hn; omega
        simp [this]
      have hrec := ih (i + 1) (by simp) (by simp [List.length] at hn ⊢; omega)
      rw [chunkLoop_cons, List.map_cons, hrec]
      simp only [List.length_cons, Nat.add_sub_cancel, hne]
      rw [List.replicate_succ]
      rfl

/-- Concatenating the fragments of a space-re-appending chunk loop recovers
the space-joined piece list. -/
theorem chunkLoop_fragsConcat_space (model : JStr) (n : Nat) :
    ∀ (ws : List JStr) (i : Nat), i + ws.length = n →
      fragsConcat (chunkLoop model true n i ws) = joinSpaceCore ws := by
  intro ws
  induction ws with
  | nil => intro i _; rfl
  | cons w ws ih =>
    intro i hn
    cases ws with
    | nil =>
      have hlt : ¬ (i < n - 1) := by simp at hn; omega
      simp [chunkLoop, fragsConcat, hlt]
    | cons x xs =>
      have hlt : i < n - 1 := by simp [List.length] at hn; omega
      have hrec := ih (i + 1) (by simp [List.length] at hn ⊢; omega)
      rw [chunkLoop_cons, fragsConcat_cons, hrec, joinSpaceCore_cons_cons]
      simp [hlt]

/-- Concatenating the fragments of a plain chunk loop recovers the plain
concatenation of the piece list. -/
theorem chunkLoop_fragsConcat_plain (model : JStr) (n : Nat) :
    ∀ (ws : List JStr) (i : Nat),
      fragsConcat (chunkLoop model false n i ws) = joinPlainCore ws := by
  intro ws
  induction ws with
  | nil => intro i; rfl
  | cons w ws ih =>
    intro i
    rw [chunkLoop_cons, fragsConcat_cons, ih (i + 1)]
    simp [joinPlainCore]

/-! ## Adapter-level lemmas -/

theorem bedrock_stream_concat (modelId prompt : JStr) (options : ChatOptions) :
    fragsConcat (BedrockStrategy.streamMessage modelId prompt options) =
      (BedrockStrategy.sendMessage modelId prompt options).content := by
  show fragsConcat (BedrockStrategy.chunksOfContent _ _) = _
  unfold BedrockStrategy.chunksOfContent
  rw [chunkLoop_fragsConcat_space _ _ _ 0 (Nat.zero_add _)]
  exact joinSpaceCore_splitSpaceCore _

theorem azure_stream_concat (deploymentId prompt : JStr) (options : ChatOptions) :
    fragsConcat (AzureOpenAIStrategy.streamMessage deploymentId prompt options) =
      (AzureOpenAIStrategy.sendMessage deploymentId prompt options).content := by
  show fragsConcat (AzureOpenAIStrategy.chunksOfContent _ _) = _
  unfold AzureOpenAIStrategy.chunksOfContent
  rw [chunkLoop_fragsConcat_space _ _ _ 0 (Nat.zero_add _)]
  exact joinSpaceCore_splitSpaceCore _

theorem ollama_stream_concat (model prompt : JStr) (options : ChatOptions) :
    fragsConcat (OllamaStrategy.streamMessage model prompt options) =
      (OllamaStrategy.sendMessage model prompt options).content := by
  show fragsConcat (OllamaStrategy.chunksOfContent _ _) = _
  unfold OllamaStrategy.chunksOfContent
  rw [chunkLoop_fragsConcat_plain]
  exact joinPlainCore_map_singleton _

/-- The Google stream concatenation is in general the sentence pieces glued
back together with the separator whitespace dropped. -/
theorem google_stream_concat (model prompt : JStr) (options : ChatOptions) :
    fragsConcat (GoogleVertexStrategy.streamMessage model prompt options) =
      joinPlainCore (jsSplitSentences (GoogleVertexStrategy.sendMessage model prompt options).content) := by
  show fragsConcat (GoogleVertexStrategy.chunksOfContent _ _) = _
  unfold GoogleVertexStrategy.chunksOfContent
  rw [chunkLoop_fragsConcat_plain]

theorem google_stream_concat_of_no_boundary (model prompt : JStr) (options : ChatOptions)
    (h : hasSentenceBoundary none (GoogleVertexStrategy.sendMessage model prompt options).content = false) :
    fragsConcat (GoogleVertexStrategy.streamMessage model prompt options) =
      (GoogleVertexStrategy.sendMessage model prompt options).content := by
  rw [google_stream_concat]
  unfold jsSplitSentences
  rw [splitSentencesGo_of_no_boundary _ none h]
  simp [joinPlainCore]

theorem ollama_sendMessage_content (model prompt : JStr) (options : ChatOptions) :
    (OllamaStrategy.sendMessage model prompt options).content =
      "Ollama response to: ".data ++ prompt := rfl

theorem ollama_content_ne_nil (model prompt : JStr) (options : ChatOptions) :
    (OllamaStrategy.sendMessage model prompt options).content ≠ [] := by
  rw [ollama_sendMessage_content]
  exact List.append_ne_nil_of_left_ne_nil (by decide) _

/-- The isLast pattern of one synthesized chunk sequence. -/
theorem chunks_isLast_pattern (model : JStr) (addSpace : Bool) (n : Nat) (ws : List JStr)
    (hne : ws ≠ []) (hn : ws.length = n) :
    (chunkLoop model addSpace n 0 ws).map (fun c => c.isLast) =
      List.replicate ((chunkLoop model addSpace n 0 ws).length - 1) false ++ [true] := by
  rw [chunkLoop_length]
  exact chunkLoop_map_isLast model addSpace n ws 0 hne (by omega)

/-! ## Claims -/

/-- C2: for every platform/model pair and every prompt and options, the chunk
sequence produced by the adapter's streamMessage contains exactly one chunk
with isLast = true, and that chunk is the last element: its isLast flags are
the list that is false everywhere except at the final position. -/
theorem claim_C2 (s : LLMStrategy) (prompt : JStr) (options : ChatOptions) :
    (s.streamMessage prompt options).map (fun c => c.isLast) =
      List.replicate ((s.streamMessage prompt options).length - 1) false ++ [true] := by
  cases s with
  | bedrock modelId =>
    exact chunks_isLast_pattern _ true _ _ (splitSpaceCore_ne_nil _) rfl
  | azure deploymentId =>
    exact chunks_isLast_pattern _ true _ _ (splitSpaceCore_ne_nil _) rfl
  | google model =>
    exact chunks_isLast_pattern _ false _ _ (splitSentencesGo_ne_nil _ none false) rfl
  | ollama model =>
    have hc := ollama_content_ne_nil model prompt options
    have hne : ((OllamaStrategy.sendMessage model prompt options).content.map
        (fun c => ([c] : JStr))) ≠ [] := by
      cases hcc : (OllamaStrategy.sendMessage model prompt options).content with
      | nil => exact absurd hcc hc
      | cons a as => simp
    exact chunks_isLast_pattern _ false _ _ hne (by simp)

/-- C3: every adapter's sendMessage produces a ChatResponse whose
usage.totalTokens is the sum of usage.promptTokens and usage.completionTokens,
and the adapters' response mapping takes these two counts verbatim from the
backend's reported fields (promptTokens/completionTokens for Bedrock,
usage.promptTokens/usage.completionTokens for Azure,
tokenUsage.promptTokens/tokenUsage.candidatesTokens for Google,
promptEvalCount/evalCount for Ollama). -/
theorem claim_C3 :
    (∀ (s : LLMStrategy) (prompt : JStr) (options : ChatOptions),
      (s.sendMessage prompt options).usage.totalTokens =
        (s.sendMessage prompt options).usage.promptTokens +
          (s.sendMessage prompt options).usage.completionTokens) ∧
    (∀ r : BedrockResponse,
      (BedrockStrategy.adaptResponse r).usage.promptTokens = r.promptTokens ∧
      (BedrockStrategy.adaptResponse r).usage.completionTokens = r.completionTokens ∧
      (BedrockStrategy.adaptResponse r).usage.totalTokens = r.promptTokens + r.completionTokens) ∧
    (∀ r : AzureResponse,
      (AzureOpenAIStrategy.adaptResponse r).usage.promptTokens = r.usage.promptTokens ∧
      (AzureOpenAIStrategy.adaptResponse r).usage.completionTokens = r.usage.completionTokens ∧
      (AzureOpenAIStrategy.adaptResponse r).usage.totalTokens =
        r.usage.promptTokens + r.usage.completionTokens) ∧
    (∀ r : GoogleResponse,
      (GoogleVertexStrategy.adaptResponse r).usage.promptTokens = r.tokenUsage.promptTokens ∧
      (GoogleVertexStrategy.adaptResponse r).usage.completionTokens = r.tokenUsage.candidatesTokens ∧
      (GoogleVertexStrategy.adaptResponse r).usage.totalTokens =
        r.tokenUsage.promptTokens + r.tokenUsage.candidatesTokens) ∧
    (∀ r : OllamaResponse,
      (OllamaStrategy.adaptResponse r).usage.promptTokens = r.promptEvalCount ∧
      (OllamaStrategy.adaptResponse r).usage.completionTokens = r.evalCount ∧
      (OllamaStrategy.adaptResponse r).usage.totalTokens = r.promptEvalCount + r.evalCount) := by
  refine ⟨fun s prompt options => ?_, fun r => ⟨rfl, rfl, rfl⟩, fun r => ⟨rfl, rfl, rfl⟩,
    fun r => ⟨rfl, rfl, rfl⟩, fun r => ⟨rfl, rfl, rfl⟩⟩
  cases s <;> rfl

/-- C10: on empty full-response content the synthesized streams diverge:
the Bedrock and Azure split-and-yield stages produce exactly one chunk with an
empty contentFragment and isLast = true, while the Ollama stage produces the
empty sequence, which in particular contains no chunk with isLast = true. -/
theorem claim_C10 (model : JStr) :
    BedrockStrategy.chunksOfContent model [] =
      [{ model := model, contentFragment := [], isLast := true }] ∧
    AzureOpenAIStrategy.chunksOfContent model [] =
      [{ model := model, contentFragment := [], isLast := true }] ∧
    OllamaStrategy.chunksOfContent model [] = [] ∧
    (OllamaStrategy.chunksOfContent model []).filter (fun c => c.isLast) = [] :=
  ⟨rfl, rfl, rfl, rfl⟩

/-- C5: getFactory fails, with the NotRegistered message carrying the
requested name, exactly when the registry map holds nothing under the
lower-cased name (and returns the stored factory otherwise); createClient
fails, with the UnsupportedModel message naming the platform and quoting the
rejected model identifier, exactly when the model is not an exact member of
the platform's fixed allowlist, and in that case no adapter value is ever
returned. -/
theorem claim_C5 :
    (∀ (registry : LLMRegistry) (platform : JStr),
      registry.getFactory platform = Except.error (notRegisteredMsg platform) ↔
        registry (jsToLower platform) = none) ∧
    (∀ (registry : LLMRegistry) (platform : JStr) (factory : LLMFactory),
      registry.getFactory platform = Except.ok factory ↔
        registry (jsToLower platform) = some factory) ∧
    (∀ (factory : LLMFactory) (model : JStr),
      factory.createClient model = Except.error (factory.unsupportedModelMsg model) ↔
        ¬ (model ∈ factory.supportedModels)) ∧
    (∀ (factory : LLMFactory) (model : JStr),
      ¬ (model ∈ factory.supportedModels) →
        ∀ s : LLMStrategy, factory.createClient model ≠ Except.ok s) ∧
    (∀ (factory : LLMFactory) (model : JStr),
      model ∈ factory.supportedModels →
        factory.createClient model = Except.ok (factory.strategyFor model)) := by
  refine ⟨fun registry platform => ?_, fun registry platform factory => ?_,
    fun factory model => ?_, fun factory model h s => ?_, fun factory model h => ?_⟩
  · unfold LLMRegistry.getFactory
    cases registry (jsToLower platform) <;> simp
  · unfold LLMRegistry.getFactory
    cases registry (jsToLower platform) <;> simp
  · unfold LLMFactory.createClient
    by_cases h : model ∈ factory.supportedModels <;> simp [h]
  · unfold LLMFactory.createClient
    simp [h]
  · unfold LLMFactory.createClient
    simp [h]

/-- C5 witness: an unregistered platform on the empty registry produces the
NotRegistered error carrying the name; an Azure model outside the allowlist
produces the UnsupportedModel error, and a listed one yields an adapter. -/
theorem claim_C5_witness :
    (LLMRegistry.empty (jsToLower "azure".data) = none ∧
      LLMRegistry.getFactory LLMRegistry.empty "azure".data =
        Except.error (notRegisteredMsg "azure".data)) ∧
    (¬ ("gpt-5".data ∈ LLMFactory.supportedModels LLMFactory.azure) ∧
      LLMFactory.createClient LLMFactory.azure "gpt-5".data =
        Except.error (LLMFactory.unsupportedModelMsg LLMFactory.azure "gpt-5".data)) ∧
    ("gpt-4o".data ∈ LLMFactory.supportedModels LLMFactory.azure ∧
      LLMFactory.createClient LLMFactory.azure "gpt-4o".data =
        Except.ok (LLMFactory.strategyFor LLMFactory.azure "gpt-4o".data)) :=
  ⟨⟨rfl, (claim_C5.1 LLMRegistry.empty "azure".data).mpr rfl⟩,
   ⟨by decide, (claim_C5.2.2.1 LLMFactory.azure "gpt-5".data).mpr (by decide)⟩,
   ⟨by decide, claim_C5.2.2.2.2 LLMFactory.azure "gpt-4o".data (by decide)⟩⟩

/-- C6: registration is keyed by the ASCII-lower-cased platform name, so after
register(n1, f) a getFactory(n2) with n2 case-equal to n1 returns f; a second
registration under a case-equal name fully overwrites the first (the map is a
function of the lower-cased key, hence holds at most one factory per
lower-cased name, and the last registration wins). -/
theorem claim_C6 :
    (∀ (registry : LLMRegistry) (n1 n2 : JStr) (factory : LLMFactory),
      jsToLower n1 = jsToLower n2 →
        (registry.register n1 factory).getFactory n2 = Except.ok factory) ∧
    (∀ (registry : LLMRegistry) (n1 n2 : JStr) (f1 f2 : LLMFactory),
      jsToLower n1 = jsToLower n2 →
        (registry.register n1 f1).register n2 f2 = registry.register n2 f2) := by
  constructor
  · intro registry n1 n2 factory h
    unfold LLMRegistry.getFactory LLMRegistry.register
    simp [h]
  · intro registry n1 n2 f1 f2 h
    funext key
    unfold LLMRegistry.register
    by_cases hk : key = jsToLower n2
    · simp [hk]
    · simp [hk, h]

/-- C6 witness: registering under "Azure" and looking up "azure" on the empty
registry returns the registered factory, and re-registering under "AZURE"
erases the earlier entry entirely. -/
theorem claim_C6_witness :
    jsToLower "Azure".data = jsToLower "azure".data ∧
    (LLMRegistry.empty.register "Azure".data LLMFactory.azure).getFactory "azure".data =
      Except.ok LLMFactory.azure ∧
    jsToLower "AZURE".data = jsToLower "azure".data ∧
    (LLMRegistry.empty.register "AZURE".data LLMFactory.bedrock).register
        "azure".data LLMFactory.azure =
      LLMRegistry.empty.register "azure".data LLMFactory.azure :=
  ⟨by decide,
   claim_C6.1 LLMRegistry.empty "Azure".data "azure".data LLMFactory.azure (by decide),
   by decide,
   claim_C6.2 LLMRegistry.empty "AZURE".data "azure".data LLMFactory.bedrock
     LLMFactory.azure (by decide)⟩

/-- C9: when configure throws (unregistered platform or rejected model), the
service object is left exactly as it was: same state, same
getCurrentConfiguration result, and send/stream behave as before the failed
call. -/
theorem claim_C9 (registry : LLMRegistry) (st : ChatServiceState) (config : ProviderConfig)
    (e : JStr) (h : ChatService.configure registry config = Except.error e) :
    ChatService.configureApply registry st config = st ∧
    ChatService.getCurrentConfiguration (ChatService.configureApply registry st config) =
      ChatService.getCurrentConfiguration st ∧
    (∀ (prompt : JStr) (options : ChatOptions),
      ChatService.send (ChatService.configureApply registry st config) prompt options =
        ChatService.send st prompt options ∧
      ChatService.stream (ChatService.configureApply registry st config) prompt options =
        ChatService.stream st prompt options) := by
  have happ : ChatService.configureApply registry st config = st := by
    unfold ChatService.configureApply
    rw [h]
  exact ⟨happ, by rw [happ], fun prompt options => ⟨by rw [happ], by rw [happ]⟩⟩

/-- C9 witness: on the default registry, configuring an already google
configured service with the unsupported azure model "nope" fails and leaves
the service state and its reported configuration unchanged. -/
theorem claim_C9_witness :
    ChatService.configure llmRegistryDefault
        { platform := "azure".data, model := "nope".data } =
      Except.error (LLMFactory.unsupportedModelMsg LLMFactory.azure "nope".data) ∧
    ChatService.configureApply llmRegistryDefault
        { strategy := some (LLMStrategy.google "gemini-pro".data)
        , config := some { platform := "google".data, model := "gemini-pro".data } }
        { platform := "azure".data, model := "nope".data } =
      { strategy := some (LLMStrategy.google "gemini-pro".data)
      , config := some { platform := "google".data, model := "gemini-pro".data } } ∧
    ChatService.getCurrentConfiguration
        (ChatService.configureApply llmRegistryDefault
          { strategy := some (LLMStrategy.google "gemini-pro".data)
          , config := some { platform := "google".data, model := "gemini-pro".data } }
          { platform := "azure".data, model := "nope".data }) =
      some { platform := "google".data, model := "gemini-pro".data } :=
  ⟨rfl,
   (claim_C9 llmRegistryDefault
     { strategy := some (LLMStrategy.google "gemini-pro".data)
     , config := some { platform := "google".data, model := "gemini-pro".data } }
     { platform := "azure".data, model := "nope".data }
     (LLMFactory.unsupportedModelMsg LLMFactory.azure "nope".data) rfl).1,
   ((claim_C9 llmRegistryDefault
     { strategy := some (LLMStrategy.google "gemini-pro".data)
     , config := some { platform := "google".data, model := "gemini-pro".data } }
     { platform := "azure".data, model := "nope".data }
     (LLMFactory.unsupportedModelMsg LLMFactory.azure "nope".data) rfl).2.1).trans rfl⟩

theorem configure_ok_strategy (registry : LLMRegistry) (config : ProviderConfig)
    (st' : ChatServiceState) (h : ChatService.configure registry config = Except.ok st') :
    ∃ s, st'.strategy = some s ∧ st'.config = some config := by
  unfold ChatService.configure at h
  split at h
  next => simp at h
  next factory heq =>
    split at h
    next => simp at h
    next strategy heq2 =>
      simp only [Except.ok.injEq] at h
      subst h
      exact ⟨strategy, rfl, rfl⟩

theorem configureApply_of_not_ok (registry : LLMRegistry) (st : ChatServiceState)
    (config : ProviderConfig) (h : (ChatService.configure registry config).isOk = false) :
    ChatService.configureApply registry st config = st := by
  unfold ChatService.configureApply
  split
  next => rfl
  next st' heq => rw [heq] at h; simp [Except.isOk, Except.toBool] at h

theorem configureApply_strategy_isSome (registry : LLMRegistry) (st : ChatServiceState)
    (config : ProviderConfig) (h : st.strategy.isSome = true) :
    ((ChatService.configureApply registry st config).strategy).isSome = true := by
  unfold ChatService.configureApply
  split
  next => exact h
  next st' heq =>
    obtain ⟨s, hs, _⟩ := configure_ok_strategy registry config st' heq
    simp [hs]

theorem runConfigures_strategy_none (registry : LLMRegistry) :
    ∀ (cfgs : List ProviderConfig) (st : ChatServiceState), st.strategy = none →
      (∀ c ∈ cfgs, (ChatService.configure registry c).isOk = false) →
      (ChatService.runConfigures registry st cfgs).strategy = none := by
  intro cfgs
  induction cfgs with
  | nil => intro st h _; exact h
  | cons c cs ih =>
    intro st h hall
    show (ChatService.runConfigures registry (ChatService.configureApply registry st c) cs).strategy = none
    rw [configureApply_of_not_ok registry st c (hall c (by simp))]
    exact ih st h (fun x hx => hall x (by simp [hx]))

theorem runConfigures_strategy_isSome (registry : LLMRegistry) :
    ∀ (cfgs : List ProviderConfig) (st : ChatServiceState), st.strategy.isSome = true →
      ((ChatService.runConfigures registry st cfgs).strategy).isSome = true := by
  intro cfgs
  induction cfgs with
  | nil => intro st h; exact h
  | cons c cs ih =>
    intro st h
    exact ih _ (configureApply_strategy_isSome registry st c h)

theorem send_of_strategy_isSome (st : ChatServiceState) (h : (st.strategy).isSome = true)
    (prompt : JStr) (options : ChatOptions) :
    ChatService.send st prompt options ≠ Except.error notConfiguredMsg ∧
    ChatService.stream st prompt options ≠ Except.error notConfiguredMsg := by
  unfold ChatService.send ChatService.stream
  cases hs : st.strategy with
  | none => rw [hs] at h; simp at h
  | some s => simp

/-- C4: send and stream on a never successfully configured service always
fail with the NotConfigured error (initially, and still after any sequence of
failing configure calls); after any successful configure, send and stream
never produce the NotConfigured error again, whatever further configure calls
are applied. -/
theorem claim_C4 (registry : LLMRegistry) :
    (∀ (prompt : JStr) (options : ChatOptions),
      ChatService.send {} prompt options = Except.error notConfiguredMsg ∧
      ChatService.stream {} prompt options = Except.error notConfiguredMsg) ∧
    (∀ cfgs : List ProviderConfig,
      (∀ c ∈ cfgs, (ChatService.configure registry c).isOk = false) →
      ∀ (prompt : JStr) (options : ChatOptions),
        ChatService.send (ChatService.runConfigures registry {} cfgs) prompt options =
          Except.error notConfiguredMsg ∧
        ChatService.stream (ChatService.runConfigures registry {} cfgs) prompt options =
          Except.error notConfiguredMsg) ∧
    (∀ (st : ChatServiceState) (config : ProviderConfig),
      (ChatService.configure registry config).isOk = true →
      ∀ (cfgs : List ProviderConfig) (prompt : JStr) (options : ChatOptions),
        ChatService.send
            (ChatService.runConfigures registry
              (ChatService.configureApply registry st config) cfgs) prompt options ≠
          Except.error notConfiguredMsg ∧
        ChatService.stream
            (ChatService.runConfigures registry
              (ChatService.configureApply registry st config) cfgs) prompt options ≠
          Except.error notConfiguredMsg) := by
  refine ⟨fun prompt options => ⟨rfl, rfl⟩, fun cfgs hall prompt options => ?_,
    fun st config hok cfgs prompt options => ?_⟩
  · have hnone := runConfigures_strategy_none registry cfgs {} rfl hall
    unfold ChatService.send ChatService.stream
    rw [hnone]
    exact ⟨rfl, rfl⟩
  · have happ : ((ChatService.configureApply registry st config).strategy).isSome = true := by
      unfold ChatService.configureApply
      split
      next heq => rw [heq] at hok; simp [Except.isOk, Except.toBool] at hok
      next st' heq =>
        obtain ⟨s, hs, _⟩ := configure_ok_strategy registry config st' heq
        simp [hs]
    exact send_of_strategy_isSome _ (runConfigures_strategy_isSome registry cfgs _ happ)
      prompt options

/-- C4 witness: on the default registry, a failing configure (bad azure
model) leaves the fresh service answering NotConfigured, while after a
successful google configure a further failing configure still leaves send
able to answer. -/
theorem claim_C4_witness :
    (ChatService.configure llmRegistryDefault
        { platform := "azure".data, model := "nope".data }).isOk = false ∧
    ChatService.send
        (ChatService.runConfigures llmRegistryDefault {}
          [{ platform := "azure".data, model := "nope".data }])
        "hi".data ChatOptions.empty =
      Except.error notConfiguredMsg ∧
    (ChatService.configure llmRegistryDefault
        { platform := "google".data, model := "gemini-pro".data }).isOk = true ∧
    ChatService.send
        (ChatService.runConfigures llmRegistryDefault
          (ChatService.configureApply llmRegistryDefault {}
            { platform := "google".data, model := "gemini-pro".data })
          [{ platform := "azure".data, model := "nope".data }])
        "hi".data ChatOptions.empty ≠
      Except.error notConfiguredMsg :=
  ⟨by decide,
   ((claim_C4 llmRegistryDefault).2.1
     [{ platform := "azure".data, model := "nope".data }] (by decide)
     "hi".data ChatOptions.empty).1,
   by decide,
   ((claim_C4 llmRegistryDefault).2.2 {}
     { platform := "google".data, model := "gemini-pro".data } (by decide)
     [{ platform := "azure".data, model := "nope".data }]
     "hi".data ChatOptions.empty).1⟩

/-- C1 counterexample: on the registered pair google/gemini-pro with prompt
containing a sentence boundary, the concatenated stream fragments drop the
whitespace the sentence split consumed, so they do not equal the sendMessage
content. -/
theorem claim_C1_counterexample :
    fragsConcat ((LLMStrategy.google "gemini-pro".data).streamMessage
        "Hi. There".data ChatOptions.empty) =
      "Vertex AI response to: Hi.There".data ∧
    ((LLMStrategy.google "gemini-pro".data).sendMessage
        "Hi. There".data ChatOptions.empty).content =
      "Vertex AI response to: Hi. There".data ∧
    fragsConcat ((LLMStrategy.google "gemini-pro".data).streamMessage
        "Hi. There".data ChatOptions.empty) ≠
      ((LLMStrategy.google "gemini-pro".data).sendMessage
        "Hi. There".data ChatOptions.empty).content :=
  ⟨by decide, by decide, by decide⟩

/-- C1 (amended): the service stream delegates to the configured adapter and
the chunk sequences are finite lists by construction; for the Bedrock, Azure
and Ollama adapters the concatenated contentFragment values always equal the
sendMessage content for the same prompt/options, while for the Google adapter
this holds whenever the content has no whitespace immediately preceded by
one of . ! ? (the sentence split consumes exactly that whitespace). -/
theorem claim_C1_amended (st : ChatServiceState) (s : LLMStrategy) (prompt : JStr)
    (options : ChatOptions) (modelId deploymentId googleModel ollamaModel : JStr) :
    (st.strategy = some s →
      ChatService.stream st prompt options = Except.ok (s.streamMessage prompt options) ∧
      ChatService.send st prompt options = Except.ok (s.sendMessage prompt options)) ∧
    fragsConcat ((LLMStrategy.bedrock modelId).streamMessage prompt options) =
      ((LLMStrategy.bedrock modelId).sendMessage prompt options).content ∧
    fragsConcat ((LLMStrategy.azure deploymentId).streamMessage prompt options) =
      ((LLMStrategy.azure deploymentId).sendMessage prompt options).content ∧
    fragsConcat ((LLMStrategy.ollama ollamaModel).streamMessage prompt options) =
      ((LLMStrategy.ollama ollamaModel).sendMessage prompt options).content ∧
    (hasSentenceBoundary none
        ((LLMStrategy.google googleModel).sendMessage prompt options).content = false →
      fragsConcat ((LLMStrategy.google googleModel).streamMessage prompt options) =
        ((LLMStrategy.google googleModel).sendMessage prompt options).content) := by
  refine ⟨fun h => ?_, bedrock_stream_concat modelId prompt options,
    azure_stream_concat deploymentId prompt options,
    ollama_stream_concat ollamaModel prompt options,
    fun h => google_stream_concat_of_no_boundary googleModel prompt options h⟩
  unfold ChatService.stream ChatService.send
  rw [h]
  exact ⟨rfl, rfl⟩

/-- C1 witness: a configured google service delegates its stream to the
adapter, and for a boundary-free prompt the amended concatenation property
applies. -/
theorem claim_C1_witness :
    ({ strategy := some (LLMStrategy.google "gemini-pro".data)
     , config := some { platform := "google".data, model := "gemini-pro".data } }
      : ChatServiceState).strategy = some (LLMStrategy.google "gemini-pro".data) ∧
    ChatService.stream
        { strategy := some (LLMStrategy.google "gemini-pro".data)
        , config := some { platform := "google".data, model := "gemini-pro".data } }
        "hello".data ChatOptions.empty =
      Except.ok ((LLMStrategy.google "gemini-pro".data).streamMessage
        "hello".data ChatOptions.empty) ∧
    hasSentenceBoundary none
        ((LLMStrategy.google "gemini-pro".data).sendMessage
          "hello".data ChatOptions.empty).content = false ∧
    fragsConcat ((LLMStrategy.google "gemini-pro".data).streamMessage
        "hello".data ChatOptions.empty) =
      ((LLMStrategy.google "gemini-pro".data).sendMessage
        "hello".data ChatOptions.empty).content :=
  ⟨rfl,
   ((claim_C1_amended
     { strategy := some (LLMStrategy.google "gemini-pro".data)
     , config := some { platform := "google".data, model := "gemini-pro".data } }
     (LLMStrategy.google "gemini-pro".data) "hello".data ChatOptions.empty
     [] [] "gemini-pro".data []).1 rfl).1,
   by decide,
   (claim_C1_amended {} (LLMStrategy.google "gemini-pro".data) "hello".data
     ChatOptions.empty [] [] "gemini-pro".data []).2.2.2.2 (by decide)⟩

/-- C7 counterexample: with a non-empty but unregistered platform and a
non-empty model, build does not succeed — it throws the NotRegistered error
from the configure step, which is neither MissingField message — refuting
that build succeeds once both fields are set to non-empty strings. -/
theorem claim_C7_counterexample :
    ("bogus".data : JStr) ≠ [] ∧ ("m".data : JStr) ≠ [] ∧
    LLMClientBuilder.build llmRegistryDefault
        ((LLMClientBuilder.new.withPlatform "bogus".data).withModel "m".data) =
      Except.error (notRegisteredMsg "bogus".data) ∧
    notRegisteredMsg "bogus".data ≠ missingPlatformMsg ∧
    notRegisteredMsg "bogus".data ≠ missingModelMsg :=
  ⟨by decide, by decide, rfl, by decide, by decide⟩

/-- C7 (amended): build fails with the MissingField error identifying the
absent field whenever the accumulated platform (checked first) or model is
unset or empty, regardless of the order of withPlatform/withModel calls; once
both are non-empty, build never fails with a MissingField error but proceeds
to configure the underlying service, succeeding exactly when the configure
step accepts the platform/model pair; a later call for the same field
overrides the earlier value and leaves the other field intact. -/
theorem claim_C7_amended (registry : LLMRegistry) (b : LLMClientBuilder) :
    (b.platformOf = [] →
      LLMClientBuilder.build registry b = Except.error missingPlatformMsg) ∧
    (b.platformOf ≠ [] → b.modelOf = [] →
      LLMClientBuilder.build registry b = Except.error missingModelMsg) ∧
    (b.platformOf ≠ [] → b.modelOf ≠ [] →
      LLMClientBuilder.build registry b =
        (match ChatService.configure registry
            { platform := b.platformOf, model := b.modelOf } with
         | Except.error e => Except.error e
         | Except.ok serviceState =>
           Except.ok { service := serviceState, defaultOptions := b.defaultOptions })) ∧
    (∀ p : JStr, (b.withPlatform p).platformOf = p ∧ (b.withPlatform p).modelOf = b.modelOf ∧
      (b.withPlatform p).defaultOptions = b.defaultOptions) ∧
    (∀ m : JStr, (b.withModel m).modelOf = m ∧ (b.withModel m).platformOf = b.platformOf ∧
      (b.withModel m).defaultOptions = b.defaultOptions) := by
  refine ⟨fun h1 => ?_, fun h1 h2 => ?_, fun h1 h2 => ?_, fun p => ?_, fun m => ?_⟩
  · unfold LLMClientBuilder.build
    cases hb : b.config with
    | none => rfl
    | some cfg =>
      have hp : cfg.platform = [] := by
        have hx := h1; unfold LLMClientBuilder.platformOf at hx; rw [hb] at hx; exact hx
      simp [hp]
  · unfold LLMClientBuilder.build
    cases hb : b.config with
    | none =>
      have hx := h1; unfold LLMClientBuilder.platformOf at hx; rw [hb] at hx
      exact absurd rfl hx
    | some cfg =>
      have hp : cfg.platform ≠ [] := by
        have hx := h1; unfold LLMClientBuilder.platformOf at hx; rw [hb] at hx; exact hx
      have hm : cfg.model = [] := by
        have hx := h2; unfold LLMClientBuilder.modelOf at hx; rw [hb] at hx; exact hx
      simp [hp, hm]
  · unfold LLMClientBuilder.build
    cases hb : b.config with
    | none =>
      have hx := h1; unfold LLMClientBuilder.platformOf at hx; rw [hb] at hx
      exact absurd rfl hx
    | some cfg =>
      have hp : cfg.platform ≠ [] := by
        have hx := h1; unfold LLMClientBuilder.platformOf at hx; rw [hb] at hx; exact hx
      have hm : cfg.model ≠ [] := by
        have hx := h2; unfold LLMClientBuilder.modelOf at hx; rw [hb] at hx; exact hx
      have hcfg : ({ platform := b.platformOf, model := b.modelOf } : ProviderConfig) = cfg := by
        unfold LLMClientBuilder.platformOf LLMClientBuilder.modelOf
        rw [hb]
      rw [hcfg]
      simp [hp, hm]
  · unfold LLMClientBuilder.withPlatform LLMClientBuilder.platformOf LLMClientBuilder.modelOf
    cases b.config <;> exact ⟨rfl, rfl, rfl⟩
  · unfold LLMClientBuilder.withModel LLMClientBuilder.platformOf LLMClientBuilder.modelOf
    cases b.config <;> exact ⟨rfl, rfl, rfl⟩

/-- C7 witness: a model-only builder fails with the platform MissingField
message; a builder with a registered platform and listed model builds a
configured client; overriding the platform keeps the model intact. -/
theorem claim_C7_witness :
    (LLMClientBuilder.new.withModel "llama3".data).platformOf = [] ∧
    LLMClientBuilder.build llmRegistryDefault (LLMClientBuilder.new.withModel "llama3".data) =
      Except.error missingPlatformMsg ∧
    ((LLMClientBuilder.new.withPlatform "ollama".data).withModel "llama3".data).platformOf ≠ [] ∧
    ((LLMClientBuilder.new.withPlatform "ollama".data).withModel "llama3".data).modelOf ≠ [] ∧
    LLMClientBuilder.build llmRegistryDefault
        ((LLMClientBuilder.new.withPlatform "ollama".data).withModel "llama3".data) =
      Except.ok
        { service :=
          { strategy := some (LLMStrategy.ollama "llama3".data)
          , config := some { platform := "ollama".data, model := "llama3".data } }
        , defaultOptions := none } ∧
    ((LLMClientBuilder.new.withModel "llama3".data).withPlatform "google".data).modelOf =
      "llama3".data :=
  ⟨by decide,
   (claim_C7_amended llmRegistryDefault (LLMClientBuilder.new.withModel "llama3".data)).1
     (by decide),
   by decide, by decide,
   ((claim_C7_amended llmRegistryDefault
     ((LLMClientBuilder.new.withPlatform "ollama".data).withModel "llama3".data)).2.2.1
     (by decide) (by decide)).trans rfl,
   ((claim_C7_amended llmRegistryDefault (LLMClientBuilder.new.withModel "llama3".data)).2.2.2.1
     "google".data).2.1⟩

/-- C8: the configured client's send and stream hand the underlying
ChatService exactly the shallow field-by-field merge of the builder defaults
and the per-call options, in which a field present (some) in the per-call
options wins and a field absent (none) falls back to the builder default. -/
theorem claim_C8 (svc : ChatServiceState) (defaults options : Option ChatOptions) (prompt : JStr) :
    ConfiguredClient.send { service := svc, defaultOptions := defaults } prompt options =
      ChatService.send svc prompt (mergeOptions defaults options) ∧
    ConfiguredClient.stream { service := svc, defaultOptions := defaults } prompt options =
      ChatService.stream svc prompt (mergeOptions defaults options) ∧
    (∀ v, (options.getD ChatOptions.empty).temperature = some v →
      (mergeOptions defaults options).temperature = some v) ∧
    ((options.getD ChatOptions.empty).temperature = none →
      (mergeOptions defaults options).temperature =
        (defaults.getD ChatOptions.empty).temperature) ∧
    (∀ v, (options.getD ChatOptions.empty).maxTokens = some v →
      (mergeOptions defaults options).maxTokens = some v) ∧
    ((options.getD ChatOptions.empty).maxTokens = none →
      (mergeOptions defaults options).maxTokens =
        (defaults.getD ChatOptions.empty).maxTokens) ∧
    (∀ v, (options.getD ChatOptions.empty).systemPrompt = some v →
      (mergeOptions defaults options).systemPrompt = some v) ∧
    ((options.getD ChatOptions.empty).systemPrompt = none →
      (mergeOptions defaults options).systemPrompt =
        (defaults.getD ChatOptions.empty).systemPrompt) ∧
    (∀ v, (options.getD ChatOptions.empty).streaming = some v →
      (mergeOptions defaults options).streaming = some v) ∧
    ((options.getD ChatOptions.empty).streaming = none →
      (mergeOptions defaults options).streaming =
        (defaults.getD ChatOptions.empty).streaming) ∧
    (∀ v, (options.getD ChatOptions.empty).metadata = some v →
      (mergeOptions defaults options).metadata = some v) ∧
    ((options.getD ChatOptions.empty).metadata = none →
      (mergeOptions defaults options).metadata =
        (defaults.getD ChatOptions.empty).metadata) := by
  refine ⟨rfl, rfl, fun v h => ?_, fun h => ?_, fun v h => ?_, fun h => ?_, fun v h => ?_,
    fun h => ?_, fun v h => ?_, fun h => ?_, fun v h => ?_, fun h => ?_⟩ <;>
    simp [mergeOptions, mergeChatOptions, h, Option.orElse]

/-- C8 witness: with a default temperature 1 / maxTokens 5 and a per-call
temperature 2, the merged options carry temperature 2 (per-call wins) and
maxTokens 5 (fallback to the default). -/
theorem claim_C8_witness :
    ((some { temperature := some 2 } : Option ChatOptions).getD
        ChatOptions.empty).temperature = some 2 ∧
    (mergeOptions (some { temperature := some 1, maxTokens := some 5 })
        (some { temperature := some 2 })).temperature = some 2 ∧
    ((some { temperature := some 2 } : Option ChatOptions).getD
        ChatOptions.empty).maxTokens = none ∧
    (mergeOptions (some { temperature := some 1, maxTokens := some 5 })
        (some { temperature := some 2 })).maxTokens = some 5 :=
  ⟨rfl,
   (claim_C8 {} (some { temperature := some 1, maxTokens := some 5 })
     (some { temperature := some 2 }) []).2.2.1 2 rfl,
   rfl,
   ((claim_C8 {} (some { temperature := some 1, maxTokens := some 5 })
     (some { temperature := some 2 }) []).2.2.2.2.2.1 rfl).trans rfl⟩
